import Mathlib

/-!
Shallow embedding of the cuBLAS Relay integration
(`python/tvm/relay/op/contrib/cublas.py`): the pattern table with its
eligibility predicate `check_matmul_like`, the partitioning pipeline
`partition_for_cublas`, the lowering dispatcher `relay_to_runtime` with its
registry `_LOWER_MAP`, and the three per-pattern lowering routines.

Machine-level conventions of the embedding:
* relay data types are their TVM string names (`"float32"`, `"int8"`, ...);
* a checked tensor type is its dtype together with its shape, a list of
  integer dimensions;
* Python code that can raise (indexing `shape[-1]` on an empty shape, a
  failed `assert`, a missing attribute or dictionary key, indexing a too
  short input list) is modelled with `Option`, `none` standing for the
  raised error, so every embedded function is total and executable.
-/

/-- The checked type of a relay tensor expression: element dtype (as its TVM
string name) and shape (list of integer dimensions). -/
structure TensorType where
  dtype : String
  shape : List Int
  deriving DecidableEq

/-- The attributes of a matmul-like relay call that the lowering routines
read: the two transpose flags. -/
structure MatmulAttrs where
  transpose_a : Bool
  transpose_b : Bool
  deriving DecidableEq

/-- The matched call handed to the eligibility predicate, viewed through the
metadata the integration can inspect: the matched operator's name, the call
attributes, the checked types of its two operands (`matched.args[0]` and
`matched.args[1]`) and the call's own checked type.  All three registered
patterns match exactly two operands. -/
structure MatchedCall where
  opName : String
  attrs : MatmulAttrs
  arg0_type : TensorType
  arg1_type : TensorType
  checked_type : TensorType
  deriving DecidableEq

/-- The list of supported (input dtype, output dtype) combinations, in the
order the source writes them. -/
def supported_dtype_pairs : List (String × String) :=
  [("float32", "float32"),
   ("float16", "float16"),
   ("float16", "float32"),
   ("int8", "int32"),
   ("float64", "float64"),
   ("int8", "float32")]

/-- Embedding of `check_matmul_like`.  Mixed operand dtypes are rejected,
then the (input, output) dtype pair is checked against
`supported_dtype_pairs`, then for int8 inputs the trailing dimension of both
operand shapes must be a multiple of 4.  `none` models the Python
`IndexError` raised by `shape[-1]` on an empty shape; the source evaluates
the first operand's trailing dimension before the second and `or`
short-circuits, which the nesting below reproduces. -/
def check_matmul_like (matched : MatchedCall) : Option Bool :=
  if matched.arg0_type.dtype ≠ matched.arg1_type.dtype then
    some false
  else
    let in_dtype := matched.arg0_type.dtype
    let out_dtype := matched.checked_type.dtype
    if (in_dtype, out_dtype) ∉ supported_dtype_pairs then
      some false
    else
      if in_dtype = "int8" then
        match matched.arg0_type.shape.getLast? with
        | none => none
        | some d0 =>
          if d0 % 4 ≠ 0 then
            some false
          else
            match matched.arg1_type.shape.getLast? with
            | none => none
            | some d1 => if d1 % 4 ≠ 0 then some false else some true
      else
        some true

/-- Dataflow patterns as built by `is_op` and `wildcard` from
`tvm.relay.dataflow_pattern`: a wildcard leaf, an operator pattern, or a
call pattern applying an operator pattern to argument patterns. -/
inductive DFPattern where
  | wildcard
  | isOp (opName : String)
  | callP (op : DFPattern) (args : List DFPattern)

/-- `is_op("nn.matmul")(wildcard(), wildcard())`. -/
def matmul_pattern : DFPattern :=
  DFPattern.callP (DFPattern.isOp "nn.matmul") [DFPattern.wildcard, DFPattern.wildcard]

/-- `is_op("nn.batch_matmul")(wildcard(), wildcard())`. -/
def batch_matmul_pattern : DFPattern :=
  DFPattern.callP (DFPattern.isOp "nn.batch_matmul") [DFPattern.wildcard, DFPattern.wildcard]

/-- `is_op("nn.dense")(wildcard(), wildcard())`. -/
def dense_pattern : DFPattern :=
  DFPattern.callP (DFPattern.isOp "nn.dense") [DFPattern.wildcard, DFPattern.wildcard]

/-- Embedding of `pattern_table`: the registered (name, template, predicate)
entries, in registration order. -/
def pattern_table : List (String × DFPattern × (MatchedCall → Option Bool)) :=
  [("cublas.matmul", matmul_pattern, check_matmul_like),
   ("cublas.batch_matmul", batch_matmul_pattern, check_matmul_like),
   ("cublas.dense", dense_pattern, check_matmul_like)]

/-- Description of one relay transform pass as used by
`partition_for_cublas`.  The passes themselves are external collaborators;
the embedding records which pass is requested with which arguments. -/
inductive PassDesc where
  | inferType
  | mergeComposite (table : List (String × DFPattern × (MatchedCall → Option Bool)))
  | annotateTarget (target : String)
  | partitionGraph

/-- Embedding of `partition_for_cublas`: builds the sequential pass list and
folds an (abstract) pass application over the input module.  `applyPass`
stands for the external pass runner; `params` is accepted and, as in the
source, never used. -/
def partition_for_cublas {Mod Params : Type} (applyPass : PassDesc → Mod → Mod)
    (mod : Mod) (params : Option Params) : Mod :=
  [PassDesc.inferType,
   PassDesc.mergeComposite pattern_table,
   PassDesc.annotateTarget "cublas",
   PassDesc.partitionGraph,
   PassDesc.inferType].foldl (fun m p => applyPass p m) mod

/-- A tensor-expression placeholder as built by `te.placeholder`. -/
structure TETensor where
  name : String
  shape : List Int
  dtype : String
  deriving DecidableEq

/-- A call into the external cuBLAS builders (`tvm.contrib.cublas.matmul`
or `tvm.contrib.cublas.batch_matmul`), recorded symbolically with the exact
arguments the integration passes. -/
inductive CublasPrim where
  | matmul (a b : TETensor) (transa transb : Bool) (dtype : String)
  | batch_matmul (a b : TETensor) (transa transb : Bool) (dtype : String)
  deriving DecidableEq

/-- The inner composite-body call as consumed by a lowering routine: its
attributes and its checked output dtype (all a lowering routine reads). -/
structure InnerOp where
  attrs : MatmulAttrs
  checked_dtype : String
  deriving DecidableEq

/-- Embedding of `_lower_matmul`: `cublas.matmul(inputs[0], inputs[1],
transa=op.attrs["transpose_a"], transb=op.attrs["transpose_b"],
dtype=op.checked_type.dtype)`; `none` models the IndexError when fewer than
two inputs exist. -/
def _lower_matmul (op : InnerOp) (inputs : List TETensor) : Option CublasPrim :=
  match inputs.get? 0, inputs.get? 1 with
  | some a, some b =>
    some (CublasPrim.matmul a b op.attrs.transpose_a op.attrs.transpose_b op.checked_dtype)
  | _, _ => none

/-- Embedding of `_lower_batch_matmul`: as `_lower_matmul` but calling the
batched builder. -/
def _lower_batch_matmul (op : InnerOp) (inputs : List TETensor) : Option CublasPrim :=
  match inputs.get? 0, inputs.get? 1 with
  | some a, some b =>
    some (CublasPrim.batch_matmul a b op.attrs.transpose_a op.attrs.transpose_b op.checked_dtype)
  | _, _ => none

/-- Embedding of `_lower_dense`: `cublas.matmul(inputs[0], inputs[1],
transa=False, transb=True, dtype=op.checked_type.dtype)`. -/
def _lower_dense (op : InnerOp) (inputs : List TETensor) : Option CublasPrim :=
  match inputs.get? 0, inputs.get? 1 with
  | some a, some b => some (CublasPrim.matmul a b false true op.checked_dtype)
  | _, _ => none

/-- Embedding of `_LOWER_MAP` after the three `_lower_composite`
registrations run in file order. -/
def _LOWER_MAP : List (String × (InnerOp → List TETensor → Option CublasPrim)) :=
  [("cublas.matmul", _lower_matmul),
   ("cublas.batch_matmul", _lower_batch_matmul),
   ("cublas.dense", _lower_dense)]

/-- Function-level attributes the dispatcher reads: the "Composite" tag and
the global symbol; `none` models an absent attribute, whose access raises in
the source. -/
structure FuncAttrs where
  composite : Option String
  global_symbol : Option String

/-- The fragment of the relay expression language that `relay_to_runtime`
inspects: variables, operator references, calls and functions. -/
inductive Expr where
  | var (ty : TensorType)
  | opref (name : String)
  | call (op : Expr) (args : List Expr) (attrs : MatmulAttrs) (checked_type : TensorType)
  | func (params : List TensorType) (body : Expr) (attrs : FuncAttrs)

/-- One `te.placeholder` per composite-function parameter, in parameter
order, named `input_i` and carrying the parameter's checked shape and
dtype. -/
def build_inputs (params : List TensorType) : List TETensor :=
  params.enum.map (fun p => { name := "input_" ++ toString p.1, shape := p.2.shape, dtype := p.2.dtype })

/-- The result of `tvm.build(te.create_prim_func(inputs + [output]),
name=global_name)`, recorded symbolically: the module name, the input
placeholders and the lowered output expression. -/
structure CompiledModule where
  name : String
  inputs : List TETensor
  output : CublasPrim
  deriving DecidableEq

/-- Embedding of `relay_to_runtime`.  `none` models any fatal error on the
way: a failed `isinstance` assert, a missing `global_symbol` or
`"Composite"` attribute, a composite name absent from `_LOWER_MAP`, a
non-call composite body, or an error inside the lowering routine.  The
checks appear in the source's order. -/
def relay_to_runtime (partition : Expr) : Option CompiledModule :=
  match partition with
  | Expr.func _ (Expr.call (Expr.func cparams cbody fattrs) _ _ _) pattrs =>
    match pattrs.global_symbol with
    | none => none
    | some global_name =>
      match fattrs.composite with
      | none => none
      | some comp_name =>
        match _LOWER_MAP.lookup comp_name with
        | none => none
        | some lower =>
          match cbody with
          | Expr.call _ _ iattrs ity =>
            let inputs := build_inputs cparams
            match lower { attrs := iattrs, checked_dtype := ity.dtype } inputs with
            | none => none
            | some output => some { name := global_name, inputs := inputs, output := output }
          | _ => none
  | _ => none

/-- The structural precondition `relay_to_runtime` asserts before lowering:
the partition is a function whose body is a call, the call's operator is
itself a function, that function's "Composite" tag exists and is registered
in `_LOWER_MAP`, and its body is a call. -/
def structOk (partition : Expr) : Bool :=
  match partition with
  | Expr.func _ (Expr.call (Expr.func _ cbody fattrs) _ _ _) _ =>
    (match fattrs.composite with
     | some comp_name => (_LOWER_MAP.lookup comp_name).isSome
     | none => false)
    &&
    (match cbody with
     | Expr.call _ _ _ _ => true
     | _ => false)
  | _ => false

/-- A matched dense call with unsupported (bfloat16, float32) dtypes, used
to instantiate the supported-pair theorem. -/
def bf16_call : MatchedCall :=
  { opName := "nn.dense", attrs := { transpose_a := false, transpose_b := true },
    arg0_type := { dtype := "bfloat16", shape := [4, 4] },
    arg1_type := { dtype := "bfloat16", shape := [4, 4] },
    checked_type := { dtype := "float32", shape := [4, 4] } }

/-- A matched matmul call with mixed float32 and float16 operand dtypes. -/
def mixed_call : MatchedCall :=
  { opName := "nn.matmul", attrs := { transpose_a := false, transpose_b := false },
    arg0_type := { dtype := "float32", shape := [4, 4] },
    arg1_type := { dtype := "float16", shape := [4, 4] },
    checked_type := { dtype := "float32", shape := [4, 4] } }

/-- A matched int8 matmul call with both trailing dimensions equal to 8. -/
def int8_aligned_call : MatchedCall :=
  { opName := "nn.matmul", attrs := { transpose_a := false, transpose_b := false },
    arg0_type := { dtype := "int8", shape := [4, 8] },
    arg1_type := { dtype := "int8", shape := [8, 8] },
    checked_type := { dtype := "int32", shape := [4, 8] } }

/-- A matched int8 call whose operands have rank-0 (empty) shape metadata. -/
def int8_scalar_call : MatchedCall :=
  { opName := "nn.matmul", attrs := { transpose_a := false, transpose_b := false },
    arg0_type := { dtype := "int8", shape := [] },
    arg1_type := { dtype := "int8", shape := [] },
    checked_type := { dtype := "int32", shape := [] } }

/-- A matched float32 matmul call with ranked operands, used to instantiate
the totality theorem. -/
def fp32_ranked_call : MatchedCall :=
  { opName := "nn.matmul", attrs := { transpose_a := true, transpose_b := false },
    arg0_type := { dtype := "float32", shape := [3, 5] },
    arg1_type := { dtype := "float32", shape := [3, 7] },
    checked_type := { dtype := "float32", shape := [5, 7] } }

/-- Two matched calls agreeing on operand types and output dtype but made
from different operators, attributes and output shapes. -/
def meta_call_a : MatchedCall :=
  { opName := "nn.matmul", attrs := { transpose_a := true, transpose_b := true },
    arg0_type := { dtype := "float16", shape := [2, 3] },
    arg1_type := { dtype := "float16", shape := [3, 4] },
    checked_type := { dtype := "float32", shape := [2, 4] } }

/-- See `meta_call_a`. -/
def meta_call_b : MatchedCall :=
  { opName := "nn.dense", attrs := { transpose_a := false, transpose_b := false },
    arg0_type := { dtype := "float16", shape := [2, 3] },
    arg1_type := { dtype := "float16", shape := [3, 4] },
    checked_type := { dtype := "float32", shape := [9, 9] } }

/-- A well-formed partition: a function with a global symbol whose body
calls a composite function tagged "cublas.matmul" whose own body is a call
of the nn.matmul operator. -/
def good_partition : Expr :=
  Expr.func [{ dtype := "float32", shape := [4, 4] }, { dtype := "float32", shape := [4, 4] }]
    (Expr.call
      (Expr.func [{ dtype := "float32", shape := [4, 4] }, { dtype := "float32", shape := [4, 4] }]
        (Expr.call (Expr.opref "nn.matmul") []
          { transpose_a := false, transpose_b := false }
          { dtype := "float32", shape := [4, 4] })
        { composite := some "cublas.matmul", global_symbol := none })
      []
      { transpose_a := false, transpose_b := false }
      { dtype := "float32", shape := [4, 4] })
    { composite := none, global_symbol := some "tvmgen_default_cublas_main_0" }

/-- C1: for a matched call whose operands share one element dtype, the
predicate answers `some true` only when the (input, output) dtype pair is
among the six supported combinations, and answers `some false` for every
other pair. -/
theorem check_matmul_like_supported_pairs_only (c : MatchedCall)
    (hsame : c.arg0_type.dtype = c.arg1_type.dtype) :
    (check_matmul_like c = some true →
        (c.arg0_type.dtype, c.checked_type.dtype) ∈ supported_dtype_pairs) ∧
      ((c.arg0_type.dtype, c.checked_type.dtype) ∉ supported_dtype_pairs →
        check_matmul_like c = some false) := by
  by_cases hm : (c.arg0_type.dtype, c.checked_type.dtype) ∈ supported_dtype_pairs
  · exact ⟨fun _ => hm, fun hn => absurd hm hn⟩
  · have key : check_matmul_like c = some false := by
      unfold check_matmul_like
      rw [if_neg (not_not_intro hsame), if_pos]
      exact hm
    exact ⟨fun ht => absurd (key.symm.trans ht) (by decide), fun _ => key⟩

/-- C1 witness: the (bfloat16, float32) pair is unsupported, so the
predicate rejects `bf16_call`. -/
theorem check_matmul_like_supported_pairs_only_witness :
    check_matmul_like bf16_call = some false :=
  (check_matmul_like_supported_pairs_only bf16_call rfl).2 (by decide)

/-- C2: a matched call whose two operands have different element dtypes is
always rejected, whatever the shapes, output dtype, attributes and
operator. -/
theorem check_matmul_like_mixed_dtypes_false (c : MatchedCall)
    (hne : c.arg0_type.dtype ≠ c.arg1_type.dtype) :
    check_matmul_like c = some false := by
  unfold check_matmul_like
  simp [hne]

/-- C2 witness: float32 × float16 operands are rejected. -/
theorem check_matmul_like_mixed_dtypes_false_witness :
    check_matmul_like mixed_call = some false :=
  check_matmul_like_mixed_dtypes_false mixed_call (by decide)

/-- C3: for a matched call with int8 operands and a supported output dtype,
the predicate accepts exactly when the trailing dimensions of both operand
shapes are multiples of 4. -/
theorem check_matmul_like_int8_alignment (c : MatchedCall) (d0 d1 : Int)
    (h0 : c.arg0_type.dtype = "int8") (h1 : c.arg1_type.dtype = "int8")
    (hout : ("int8", c.checked_type.dtype) ∈ supported_dtype_pairs)
    (hl0 : c.arg0_type.shape.getLast? = some d0)
    (hl1 : c.arg1_type.shape.getLast? = some d1) :
    (check_matmul_like c = some true) ↔ (d0 % 4 = 0 ∧ d1 % 4 = 0) := by
  unfold check_matmul_like
  rw [h0, h1, hl0, hl1]
  by_cases ha : d0 % 4 = 0 <;> by_cases hb : d1 % 4 = 0 <;>
    simp [ha, hb, hout]

/-- C3 witness: int8 operands with trailing dimensions 8 and 8 and an int32
output are accepted. -/
theorem check_matmul_like_int8_alignment_witness :
    check_matmul_like int8_aligned_call = some true :=
  (check_matmul_like_int8_alignment int8_aligned_call 8 8 rfl rfl (by decide)
    rfl rfl).mpr (by decide)

/-- C4: the dense lowering always hands the external matmul builder the
first two placeholders with `transa = false`, `transb = true` and the inner
call's checked output dtype, whatever the call's attributes hold. -/
theorem lower_dense_fixed_transposes (op : InnerOp) (a b : TETensor)
    (rest : List TETensor) :
    _lower_dense op (a :: b :: rest) =
      some (CublasPrim.matmul a b false true op.checked_dtype) := rfl

/-- C5: the matmul and batch_matmul lowerings hand the corresponding
external builder exactly the first two placeholders, the call's
`transpose_a` and `transpose_b` attributes verbatim, and the call's checked
output dtype. -/
theorem lower_matmul_batch_matmul_propagate (op : InnerOp) (a b : TETensor)
    (rest : List TETensor) :
    _lower_matmul op (a :: b :: rest) =
        some (CublasPrim.matmul a b op.attrs.transpose_a op.attrs.transpose_b
          op.checked_dtype) ∧
      _lower_batch_matmul op (a :: b :: rest) =
        some (CublasPrim.batch_matmul a b op.attrs.transpose_a op.attrs.transpose_b
          op.checked_dtype) :=
  ⟨rfl, rfl⟩

/-- C6: whenever `relay_to_runtime` produces a compiled module (it did not
fail fatally), its argument satisfied the whole structural precondition;
contrapositively, any violation of the precondition makes it fail with no
module produced. -/
theorem relay_to_runtime_requires_structOk (partition : Expr)
    (h : relay_to_runtime partition ≠ none) : structOk partition = true := by
  unfold relay_to_runtime at h
  split at h
  all_goals try exact absurd rfl h
  split at h
  all_goals try exact absurd rfl h
  split at h
  all_goals try exact absurd rfl h
  split at h
  all_goals try exact absurd rfl h
  split at h
  all_goals try exact absurd rfl h
  simp [structOk, *]

/-- C6 witness: a well-formed partition is compiled (the dispatcher returns
a module), and the theorem then yields its structural well-formedness. -/
theorem relay_to_runtime_requires_structOk_witness :
    structOk good_partition = true :=
  relay_to_runtime_requires_structOk good_partition (by decide)

/-- C7: `partition_for_cublas` applies exactly type inference, merge
composite with the cuBLAS pattern table, annotate target "cublas", graph
partitioning, and type inference again, in that order and each once, and
returns the resulting module. -/
theorem partition_for_cublas_pipeline {Mod Params : Type}
    (applyPass : PassDesc → Mod → Mod) (mod : Mod) (params : Option Params) :
    partition_for_cublas applyPass mod params =
      applyPass PassDesc.inferType
        (applyPass PassDesc.partitionGraph
          (applyPass (PassDesc.annotateTarget "cublas")
            (applyPass (PassDesc.mergeComposite pattern_table)
              (applyPass PassDesc.inferType mod)))) := rfl

/-- C8: the pattern table has exactly three entries, in the order matmul,
batch_matmul, dense; each template is a single call of the corresponding
operator on two wildcards, and all three carry `check_matmul_like`. -/
theorem pattern_table_entries :
    pattern_table =
      [("cublas.matmul",
        DFPattern.callP (DFPattern.isOp "nn.matmul")
          [DFPattern.wildcard, DFPattern.wildcard],
        check_matmul_like),
       ("cublas.batch_matmul",
        DFPattern.callP (DFPattern.isOp "nn.batch_matmul")
          [DFPattern.wildcard, DFPattern.wildcard],
        check_matmul_like),
       ("cublas.dense",
        DFPattern.callP (DFPattern.isOp "nn.dense")
          [DFPattern.wildcard, DFPattern.wildcard],
        check_matmul_like)] := rfl

/-- C9 counterexample: on a candidate with two typed int8 rank-0 operands
and int32 output, the predicate does not return a boolean: the trailing
dimension access `shape[-1]` raises an IndexError, modelled `none`. -/
theorem check_matmul_like_scalar_int8_raises :
    check_matmul_like int8_scalar_call = none := by decide

/-- C9 (amended): on every candidate whose two operands have nonempty shape
metadata the predicate terminates with a boolean; being a function of the
call metadata, repeated evaluation gives the same result. -/
theorem check_matmul_like_total_on_ranked (c : MatchedCall)
    (h0 : c.arg0_type.shape ≠ []) (h1 : c.arg1_type.shape ≠ []) :
    (check_matmul_like c).isSome = true := by
  unfold check_matmul_like
  by_cases hne : c.arg0_type.dtype ≠ c.arg1_type.dtype
  · rw [if_pos hne]
    rfl
  · rw [if_neg hne]
    by_cases hm : (c.arg0_type.dtype, c.checked_type.dtype) ∈ supported_dtype_pairs
    · rw [if_neg (not_not_intro hm)]
      by_cases hi : c.arg0_type.dtype = "int8"
      · rw [if_pos hi]
        cases hg0 : c.arg0_type.shape.getLast? with
        | none => exact absurd (by simpa using hg0) h0
        | some d0 =>
          change Option.isSome (if d0 % 4 ≠ 0 then some false else (_ : Option Bool)) = true
          by_cases ha : d0 % 4 ≠ 0
          · rw [if_pos ha]
            rfl
          · rw [if_neg ha]
            cases hg1 : c.arg1_type.shape.getLast? with
            | none => exact absurd (by simpa using hg1) h1
            | some d1 =>
              change Option.isSome (if d1 % 4 ≠ 0 then some false else (_ : Option Bool)) = true
              by_cases hb : d1 % 4 ≠ 0
              · rw [if_pos hb]
                rfl
              · rw [if_neg hb]
                rfl
      · rw [if_neg hi]
        rfl
    · rw [if_pos hm]
      rfl

/-- C9 witness: the predicate returns a boolean on a ranked float32 call. -/
theorem check_matmul_like_total_on_ranked_witness :
    (check_matmul_like fp32_ranked_call).isSome = true :=
  check_matmul_like_total_on_ranked fp32_ranked_call (by decide) (by decide)

/-- C10: the verdict depends only on the operands' checked types and the
call's checked output dtype — two matched calls agreeing on these get the
same verdict whatever their operator, attributes or output shape — and all
three pattern-table entries carry the same predicate. -/
theorem check_matmul_like_metadata_only (c1 c2 : MatchedCall)
    (h0 : c1.arg0_type = c2.arg0_type) (h1 : c1.arg1_type = c2.arg1_type)
    (h2 : c1.checked_type.dtype = c2.checked_type.dtype) :
    check_matmul_like c1 = check_matmul_like c2 ∧
      pattern_table.map (fun e => e.2.2) =
        [check_matmul_like, check_matmul_like, check_matmul_like] := by
  refine ⟨?_, rfl⟩
  unfold check_matmul_like
  rw [h0, h1, h2]

/-- C10 witness: a matmul call with both transposes set and a dense call
with neither, agreeing on operand types and output dtype, get the same
verdict. -/
theorem check_matmul_like_metadata_only_witness :
    check_matmul_like meta_call_a = check_matmul_like meta_call_b :=
  (check_matmul_like_metadata_only meta_call_a meta_call_b rfl rfl rfl).1
